import Mathlib

/-
Verification development for the FasalDrishti crop-disease diagnosis backend.

This file gives a shallow embedding, in Lean 4, of the parts of the code that
the specification's testable properties talk about:

  * the static disease knowledge base (`app/data/disease_db.py`):
    `DISEASE_DATABASE` and `CROP_DISEASES` (only the scalar fields that the
    verified properties read are transcribed; long free-text fields, symptom
    lists and treatment tables are omitted as no property depends on them);
  * the Bedrock circuit breaker (`app/services/ai_service.py`, module level
    `_bedrock_circuit` plus `_bedrock_circuit_is_open`,
    `_bedrock_circuit_record_failure`, `_bedrock_circuit_record_success`),
    with the wall clock passed explicitly as a natural number of seconds;
  * the stage-2 backend fallback chain and the stage-3 enrichment of
    `analyze_crop_image`, with the two network backends (Bedrock,
    Rekognition) represented by the optional result each would produce when
    invoked, and `random.choice` / `random.randint` in `fallback_analysis`
    represented by explicit choice parameters;
  * the confidence flattening of `_flatten_result` (`app/routes/analyze.py`),
    with Python numbers embedded as rationals;
  * the WhatsApp session store, language tables, webhook verification,
    XML escaping and the two webhook handlers (`app/routes/whatsapp.py`),
    with outbound network sends recorded as values instead of performed.

Python dictionaries with string keys are embedded as association lists in
insertion order; `dict.get` with a default becomes an `Option`-valued lookup
followed by `Option.getD`.
-/

namespace FasalDrishti

/-- Association-list lookup, embedding Python `dict[key]` / `dict.get(key)`
for string-keyed dicts (insertion order preserved). -/
def lookupKV {β : Type} : List (String × β) → String → Option β
  | [], _ => none
  | (k, v) :: rest, key => if k = key then some v else lookupKV rest key

theorem lookupKV_mem {β : Type} (l : List (String × β)) (key : String) (v : β)
    (h : lookupKV l key = some v) : (key, v) ∈ l := by
  induction l with
  | nil => simp [lookupKV] at h
  | cons p rest ih =>
    obtain ⟨k, w⟩ := p
    by_cases hk : k = key
    · subst hk
      simp [lookupKV] at h
      simp [h]
    · simp [lookupKV, hk] at h
      exact List.mem_cons_of_mem _ (ih h)

/-- ASCII lowercasing, embedding Python `str.lower()` (the code applies it
to crop names, menu selectors and command words; only ASCII letters are
case-mapped here). -/
def pyLowerChar (c : Char) : Char :=
  if 64 < c.toNat ∧ c.toNat < 91 then Char.ofNat (c.toNat + 32) else c

/-- `str.lower()` on a whole string. -/
def pyLower (s : String) : String := String.mk (s.data.map pyLowerChar)

/-- ASCII whitespace, as removed by Python `str.strip()`. -/
def pySpace (c : Char) : Bool :=
  c.toNat = 32 || c.toNat = 9 || c.toNat = 10 || c.toNat = 13 ||
  c.toNat = 11 || c.toNat = 12

/-- Python `str.strip()`: remove whitespace from both ends. -/
def pyStrip (s : String) : String :=
  String.mk (((s.data.dropWhile pySpace).reverse.dropWhile pySpace).reverse)

-- ============================================================
-- Knowledge base: app/data/disease_db.py
-- ============================================================

/-- One record of `DISEASE_DATABASE`.  Only the scalar fields read by the
pipeline code under verification are kept (`description`, `symptoms`,
`treatments`, `organic_treatments`, `prevention`, `favorable_conditions`,
`image_keywords`, `scientific_name`, `crop_hindi`, `description_hindi` are
never consulted by the verified properties and are omitted). -/
structure DiseaseRecord where
  disease_name : String
  hindi_name : String
  crop : String
  category : String
  severity_typical : String
deriving DecidableEq, Repr

/-- `DISEASE_DATABASE` from `app/data/disease_db.py`, in insertion order. -/
def DISEASE_DATABASE : List (String × DiseaseRecord) :=
  [ ("tomato_early_blight",
      { disease_name := "Early Blight", hindi_name := "अगेती झुलसा",
        crop := "Tomato", category := "Fungal", severity_typical := "moderate" }),
    ("tomato_late_blight",
      { disease_name := "Late Blight", hindi_name := "पछेती झुलसा",
        crop := "Tomato", category := "Oomycete", severity_typical := "severe" }),
    ("tomato_leaf_curl",
      { disease_name := "Tomato Leaf Curl Virus", hindi_name := "टमाटर पत्ती मोड़क विषाणु",
        crop := "Tomato", category := "Viral", severity_typical := "severe" }),
    ("rice_blast",
      { disease_name := "Rice Blast", hindi_name := "धान का ब्लास्ट",
        crop := "Rice", category := "Fungal", severity_typical := "severe" }),
    ("rice_brown_spot",
      { disease_name := "Brown Spot", hindi_name := "भूरा धब्बा रोग",
        crop := "Rice", category := "Fungal", severity_typical := "moderate" }),
    ("wheat_leaf_rust",
      { disease_name := "Leaf Rust (Brown Rust)", hindi_name := "पत्ती का रतुआ (भूरा रतुआ)",
        crop := "Wheat", category := "Fungal", severity_typical := "severe" }),
    ("wheat_yellow_rust",
      { disease_name := "Yellow Rust (Stripe Rust)", hindi_name := "पीला रतुआ (धारी रतुआ)",
        crop := "Wheat", category := "Fungal", severity_typical := "severe" }),
    ("cotton_bacterial_blight",
      { disease_name := "Bacterial Blight", hindi_name := "जीवाणु अंगमारी",
        crop := "Cotton", category := "Bacterial", severity_typical := "moderate" }),
    ("potato_late_blight",
      { disease_name := "Late Blight", hindi_name := "पछेती झुलसा",
        crop := "Potato", category := "Oomycete", severity_typical := "severe" }),
    ("chili_anthracnose",
      { disease_name := "Anthracnose / Fruit Rot", hindi_name := "एंथ्रेक्नोज / फल सड़न",
        crop := "Chili", category := "Fungal", severity_typical := "severe" }),
    ("onion_purple_blotch",
      { disease_name := "Purple Blotch", hindi_name := "बैंगनी धब्बा रोग",
        crop := "Onion", category := "Fungal", severity_typical := "moderate" }),
    ("healthy",
      { disease_name := "Healthy Plant", hindi_name := "स्वस्थ पौधा",
        crop := "General", category := "Healthy", severity_typical := "none" }) ]

/-- `CROP_DISEASES` from `app/data/disease_db.py`: crop → ordered disease keys. -/
def CROP_DISEASES : List (String × List String) :=
  [ ("tomato", ["tomato_early_blight", "tomato_late_blight", "tomato_leaf_curl"]),
    ("rice", ["rice_blast", "rice_brown_spot"]),
    ("wheat", ["wheat_leaf_rust", "wheat_yellow_rust"]),
    ("cotton", ["cotton_bacterial_blight"]),
    ("potato", ["potato_late_blight"]),
    ("chili", ["chili_anthracnose"]),
    ("onion", ["onion_purple_blotch"]) ]

/-- Python `DISEASE_DATABASE.get key` -/
def dbGet (key : String) : Option DiseaseRecord := lookupKV DISEASE_DATABASE key

/-- Python `key in DISEASE_DATABASE` -/
def dbContains (key : String) : Bool := (dbGet key).isSome

-- ============================================================
-- Circuit breaker: app/services/ai_service.py lines 30-65
-- ============================================================

/-- `BEDROCK_CIRCUIT_THRESHOLD = 2` (failures before opening). -/
def BEDROCK_CIRCUIT_THRESHOLD : Nat := 2

/-- `BEDROCK_CIRCUIT_RESET_SECS = 300` (retry after 5 minutes). -/
def BEDROCK_CIRCUIT_RESET_SECS : Nat := 300

/-- The `_bedrock_circuit` module-level state dict.  The Python field `open`
is named `isOpen` here because `open` is reserved in Lean. -/
structure Circuit where
  failures : Nat
  last_failure_time : Nat
  isOpen : Bool
deriving DecidableEq, Repr

/-- Initial value of `_bedrock_circuit` at process start. -/
def circuitInit : Circuit := { failures := 0, last_failure_time := 0, isOpen := false }

/-- `_bedrock_circuit_is_open()`; `now` stands for `time.time()`.  Returns the
boolean result together with the (possibly auto-reset) state. -/
def circuit_is_open (c : Circuit) (now : Nat) : Bool × Circuit :=
  if !c.isOpen then (false, c)
  else
    let elapsed := now - c.last_failure_time
    if elapsed > BEDROCK_CIRCUIT_RESET_SECS then
      (false, { c with isOpen := false, failures := 0 })
    else (true, c)

/-- `_bedrock_circuit_record_failure()`; `now` stands for `time.time()`. -/
def circuit_record_failure (c : Circuit) (now : Nat) : Circuit :=
  let f := c.failures + 1
  { failures := f, last_failure_time := now,
    isOpen := if f ≥ BEDROCK_CIRCUIT_THRESHOLD then true else c.isOpen }

/-- `_bedrock_circuit_record_success()`. -/
def circuit_record_success (c : Circuit) : Circuit :=
  { c with failures := 0, isOpen := false }

-- ============================================================
-- Backend results and the stage-2 fallback chain
-- (app/services/ai_service.py, fallback_analysis and analyze_crop_image)
-- ============================================================

/-- The `ai_result` dict produced by a diagnosis backend.  Each field is
optional because the Bedrock JSON may omit keys; `dict.get(k, d)` is embedded
as `Option.getD`.  Fields never read by the verified properties
(`symptoms_observed`, `affected_area_percent`, `spread_risk`,
`immediate_action_needed`, `additional_notes`, `_meta`) are omitted. -/
structure AiResult where
  crop : Option String
  is_healthy : Option Bool
  disease_key : Option String
  disease_name : Option String
  disease_cause : Option String
  confidence : Option ℚ
  severity : Option String
deriving DecidableEq, Repr

/-- The non-healthy key list built by `fallback_analysis`:
`[k for k in DISEASE_DATABASE.keys() if k != "healthy"]`. -/
def fallbackKeys : List String :=
  ((DISEASE_DATABASE.map Prod.fst).filter (fun k => k ≠ "healthy"))

/-- `fallback_analysis` (ai_service.py lines 552-579).  `random.choice` over
the key list is embedded as indexing with `choice % length`, and
`random.randint(a, b)` as `a + r % (b - a + 1)`. -/
def fallback_analysis (choice confR : Nat) : AiResult :=
  let selected_key := fallbackKeys.getD (choice % fallbackKeys.length) "healthy"
  let disease := (dbGet selected_key).getD
    { disease_name := "", hindi_name := "", crop := "", category := "",
      severity_typical := "" }
  { crop := some (pyLower disease.crop),
    is_healthy := some false,
    disease_key := some selected_key,
    disease_name := some disease.disease_name,
    disease_cause := some disease.category,
    confidence := some ((82 + confR % 15 : Nat) : ℚ),
    severity := some disease.severity_typical }

/-- Environment of one pipeline request: what each network backend would
return if it were invoked (`none` embeds any failure inside
`analyze_image_with_bedrock` / `analyze_image_with_rekognition`, including
the case of Rekognition finding no crop), the `random` draws consumed by
`fallback_analysis` (the draw for the omitted `affected_area_percent` field
is not modelled), and the wall clock. -/
structure DiagEnv where
  bedrockResult : Option AiResult
  rekResult : Option AiResult
  choice : Nat
  confR : Nat
  now : Nat
deriving Repr

/-- Outcome of stage 2 of `analyze_crop_image`: the chosen candidate, the
`analysis_engine` tag, the circuit state after the request, and the list of
backends actually invoked (in order). -/
structure Stage2Out where
  result : AiResult
  engine : String
  circuit : Circuit
  invoked : List String
deriving Repr

/-- Stage 2 of `analyze_crop_image` (ai_service.py lines 700-718) together
with the circuit-breaker usage inside `analyze_image_with_bedrock`
(lines 324-367): if the breaker is open, Bedrock is skipped without being
invoked; an invoked Bedrock records success or failure on the breaker;
Rekognition and the demo fallback touch no breaker — the module has no other
circuit state. -/
def runStage2 (c : Circuit) (env : DiagEnv) : Stage2Out :=
  let checked := circuit_is_open c env.now
  if checked.1 then
    -- Bedrock skipped entirely (no failure recorded)
    match env.rekResult with
    | some r => { result := r, engine := "rekognition", circuit := checked.2,
                  invoked := ["rekognition"] }
    | none => { result := fallback_analysis env.choice env.confR,
                engine := "fallback_demo", circuit := checked.2,
                invoked := ["rekognition"] }
  else
    match env.bedrockResult with
    | some r => { result := r, engine := "bedrock",
                  circuit := circuit_record_success checked.2,
                  invoked := ["bedrock"] }
    | none =>
      let c2 := circuit_record_failure checked.2 env.now
      match env.rekResult with
      | some r => { result := r, engine := "rekognition", circuit := c2,
                    invoked := ["bedrock", "rekognition"] }
      | none => { result := fallback_analysis env.choice env.confR,
                  engine := "fallback_demo", circuit := c2,
                  invoked := ["bedrock", "rekognition"] }

-- ============================================================
-- Stage 3: disease DB enrichment (ai_service.py lines 720-738)
-- ============================================================

/-- Stage 3 key/record resolution of `analyze_crop_image`:
`disease_key = ai_result.get("disease_key", "healthy")`, unknown keys fall
back to the first disease of the candidate's (lowercased) crop, then to
`"healthy"`; a truthy `is_healthy` overrides both to the healthy record.
Returns the final `disease_key` and `disease_info` (the `{}` default of
`DISEASE_DATABASE.get(k, {})` is embedded as `none`). -/
def enrichResolve (r : AiResult) : String × Option DiseaseRecord :=
  let disease_key := r.disease_key.getD "healthy"
  let disease_info := dbGet disease_key
  let resolved :=
    match disease_info with
    | some info => (disease_key, some info)
    | none =>
      let crop := pyLower (r.crop.getD "")
      match lookupKV CROP_DISEASES crop with
      | some (d :: _) => (d, dbGet d)
      | _ => ("healthy", dbGet "healthy")
  if r.is_healthy.getD false then
    ("healthy", (dbGet "healthy").orElse (fun _ => resolved.2))
  else resolved

/-- The fields of `response["analysis"]` (ai_service.py lines 743-760) that
feed a later re-enrichment: `crop`, `disease_key`, `is_healthy`.  Note the
defaults: `crop` falls back to the record's crop then `"unknown"`, and
`is_healthy` defaults to `disease_key == "healthy"`. -/
def analysisOf (r : AiResult) : AiResult :=
  let resolved := enrichResolve r
  let infoCrop := (resolved.2.map DiseaseRecord.crop).getD "unknown"
  let info := resolved.2
  { crop := some (pyLower (r.crop.getD infoCrop)),
    is_healthy := some (r.is_healthy.getD (resolved.1 = "healthy")),
    disease_key := some resolved.1,
    disease_name := some ((info.map DiseaseRecord.disease_name).getD
      (r.disease_name.getD "Unknown")),
    disease_cause := some ((info.map DiseaseRecord.category).getD
      (r.disease_cause.getD "")),
    confidence := some (r.confidence.getD 85),
    severity := some (r.severity.getD
      ((info.map DiseaseRecord.severity_typical).getD "moderate")) }

-- ============================================================
-- Web response flattening (app/routes/analyze.py, _flatten_result)
-- ============================================================

/-- The confidence normalization of `_flatten_result` (analyze.py line 46):
`analysis["confidence"] / 100 if analysis["confidence"] > 1 else
analysis["confidence"]`, with Python numbers embedded as rationals. -/
def flattenConfidence (confidence : ℚ) : ℚ :=
  if confidence > 1 then confidence / 100 else confidence

-- ============================================================
-- WhatsApp layer: app/routes/whatsapp.py
-- ============================================================

/-- One value of the `SUPPORTED_LANGUAGES` dict. -/
structure LangInfo where
  code : String
  name : String
  native : String
  flag : String
deriving DecidableEq, Repr

/-- `SUPPORTED_LANGUAGES` (whatsapp.py lines 32-42): menu selector → language. -/
def SUPPORTED_LANGUAGES : List (String × LangInfo) :=
  [ ("1", { code := "en", name := "English", native := "English", flag := "🇬🇧" }),
    ("2", { code := "hi", name := "Hindi", native := "हिंदी", flag := "🇮🇳" }),
    ("3", { code := "ta", name := "Tamil", native := "தமிழ்", flag := "🇮🇳" }),
    ("4", { code := "te", name := "Telugu", native := "తెలుగు", flag := "🇮🇳" }),
    ("5", { code := "kn", name := "Kannada", native := "ಕನ್ನಡ", flag := "🇮🇳" }),
    ("6", { code := "bn", name := "Bengali", native := "বাংলা", flag := "🇮🇳" }),
    ("7", { code := "mr", name := "Marathi", native := "मराठी", flag := "🇮🇳" }),
    ("8", { code := "pa", name := "Punjabi", native := "ਪੰਜਾਬੀ", flag := "🇮🇳" }),
    ("9", { code := "gu", name := "Gujarati", native := "ગુજરાતી", flag := "🇮🇳" }) ]

/-- An entry of the in-memory `user_sessions` store:
`{"language": code, "language_set": flag}`. -/
structure Session where
  language : String
  language_set : Bool
deriving DecidableEq, Repr

/-- The `user_sessions` dict, `phone_number → session`, as an association
list in insertion order. -/
abbrev SessionStore := List (String × Session)

/-- Python dict assignment `user_sessions[phone] = v` (upsert). -/
def storeSet : SessionStore → String → Session → SessionStore
  | [], k, v => [(k, v)]
  | (k0, v0) :: rest, k, v =>
    if k0 = k then (k, v) :: rest else (k0, v0) :: storeSet rest k v

/-- Python `user_sessions.pop(phone, None)` (the resulting store). -/
def storePop : SessionStore → String → SessionStore
  | [], _ => []
  | (k0, v0) :: rest, k =>
    if k0 = k then rest else (k0, v0) :: storePop rest k

/-- `get_user_language` (whatsapp.py lines 48-53). -/
def get_user_language (store : SessionStore) (phone : String) : String :=
  match lookupKV store phone with
  | some session => if session.language_set then session.language else ""
  | none => ""

/-- `set_user_language` (whatsapp.py lines 56-59). -/
def set_user_language (store : SessionStore) (phone lang_code : String) : SessionStore :=
  storeSet store phone { language := lang_code, language_set := true }

/-- Head of the menu string built by `get_language_menu`. -/
def menuHeader : String := "🌱 *Welcome to FasalDrishti!*
🌱 *FasalDrishti में आपका स्वागत है!*

🗣️ *Please choose your language / अपनी भाषा चुनें:*

"

/-- Tail of the menu string built by `get_language_menu`. -/
def menuFooter : String := "
👉 *Reply with the number (1-9)*
👉 *नंबर भेजें (1-9)*

Example: Send *2* for हिंदी"

/-- `get_language_menu` (whatsapp.py lines 62-77): header, one line per
supported language, footer. -/
def get_language_menu : String :=
  (SUPPORTED_LANGUAGES.foldl
    (fun menu p =>
      menu ++ p.1 ++ ". " ++ p.2.flag ++ " " ++ p.2.native ++ " (" ++ p.2.name ++ ")\n")
    menuHeader) ++ menuFooter

/-- The `msgs` dict of `get_language_set_confirmation` (whatsapp.py
lines 83-178); none of the texts interpolates anything. -/
def confirmationTexts : List (String × String) :=
  [ ("en",
      "✅ Language set to *English*

🌱 *Welcome to FasalDrishti — AI Crop Doctor!*

I help you identify crop diseases instantly.

📸 *How to use:*
1. Take a photo of the affected leaf/fruit
2. Send it here on WhatsApp
3. Get in 30 seconds:
   ✅ Disease identification
   💊 Treatment advice
   💰 Cost per acre

🌾 *Supported crops:* Tomato, Rice, Wheat, Cotton, Potato, Chili, Onion

📸 Send a crop photo now to get started!

🗣️ Type *lang* anytime to change language"),
    ("hi",
      "✅ भाषा *हिंदी* सेट हो गई

🌱 *FasalDrishti — AI फसल डॉक्टर में आपका स्वागत है!*

मैं आपकी फसल की बीमारी तुरंत पहचानने में मदद करता हूं।

📸 *कैसे इस्तेमाल करें:*
1. प्रभावित पत्ती/फल की फोटो लें
2. यहां WhatsApp पर भेजें
3. 30 सेकंड में पाएं:
   ✅ बीमारी की पहचान
   💊 इलाज की सलाह
   💰 प्रति एकड़ खर्च

🌾 *समर्थित फसलें:* टमाटर, धान, गेहूं, कपास, आलू, मिर्च, प्याज

📸 अभी फसल की फोटो भेजें!

🗣️ भाषा बदलने के लिए *lang* टाइप करें"),
    ("ta",
      "✅ மொழி *தமிழ்* அமைக்கப்பட்டது

🌱 *FasalDrishti — AI பயிர் மருத்துவர்!*

📸 பாதிக்கப்பட்ட இலை/பழத்தின் புகைப்படம் அனுப்புங்கள்.
30 வினாடிகளில் நோய் கண்டறிதல் + சிகிச்சை பெறுங்கள்!

🗣️ மொழி மாற்ற *lang* டைப் செய்யவும்"),
    ("te",
      "✅ భాష *తెలుగు* సెట్ చేయబడింది

🌱 *FasalDrishti — AI పంట వైద్యుడు!*

📸 ప్రభావిత ఆకు/పండు ఫోటో పంపండి.
30 సెకన్లలో వ్యాధి నిర్ధారణ + చికిత్స పొందండి!

🗣️ భాష మార్చడానికి *lang* టైప్ చేయండి"),
    ("kn",
      "✅ ಭಾಷೆ *ಕನ್ನಡ* ಹೊಂದಿಸಲಾಗಿದೆ

🌱 *FasalDrishti — AI ಬೆಳೆ ವೈದ್ಯ!*

📸 ಪೀಡಿತ ಎಲೆ/ಹಣ್ಣಿನ ಫೋಟೋ ಕಳುಹಿಸಿ.
30 ಸೆಕೆಂಡುಗಳಲ್ಲಿ ರೋಗ ಪತ್ತೆ + ಚಿಕಿತ್ಸೆ ಪಡೆಯಿರಿ!

🗣️ ಭಾಷೆ ಬದಲಿಸಲು *lang* ಟೈಪ್ ಮಾಡಿ"),
    ("bn",
      "✅ ভাষা *বাংলা* সেট হয়েছে

🌱 *FasalDrishti — AI ফসল ডাক্তার!*

📸 আক্রান্ত পাতা/ফলের ছবি পাঠান।
30 সেকেন্ডে রোগ নির্ণয় + চিকিৎসা পান!

🗣️ ভাষা পরিবর্তন করতে *lang* টাইপ করুন"),
    ("mr",
      "✅ भाषा *मराठी* सेट झाली

🌱 *FasalDrishti — AI पीक डॉक्टर!*

📸 प्रभावित पानाचा/फळाचा फोटो पाठवा.
30 सेकंदात रोग ओळख + उपचार मिळवा!

🗣️ भाषा बदलण्यासाठी *lang* टाइप करा"),
    ("pa",
      "✅ ਭਾਸ਼ਾ *ਪੰਜਾਬੀ* ਸੈੱਟ ਹੋ ਗਈ

🌱 *FasalDrishti — AI ਫ਼ਸਲ ਡਾਕਟਰ!*

📸 ਪ੍ਰਭਾਵਿਤ ਪੱਤੇ/ਫਲ ਦੀ ਫੋਟੋ ਭੇਜੋ।
30 ਸਕਿੰਟਾਂ ਵਿੱਚ ਰੋਗ ਪਛਾਣ + ਇਲਾਜ ਪ੍ਰਾਪਤ ਕਰੋ!

🗣️ ਭਾਸ਼ਾ ਬਦਲਣ ਲਈ *lang* ਟਾਈਪ ਕਰੋ"),
    ("gu",
      "✅ ભાષા *ગુજરાતી* સેટ થઈ

🌱 *FasalDrishti — AI પાક ડૉક્ટર!*

📸 અસરગ્રસ્ત પાન/ફળનો ફોટો મોકલો.
30 સેકન્ડમાં રોગ ઓળખ + સારવાર મેળવો!

🗣️ ભાષા બદલવા *lang* ટાઈપ કરો") ]

/-- `get_language_set_confirmation` (whatsapp.py lines 80-179):
`msgs.get(lang_code, msgs["en"])`. -/
def get_language_set_confirmation (lang_code : String) : String :=
  match lookupKV confirmationTexts lang_code with
  | some msg => msg
  | none => (lookupKV confirmationTexts "en").getD ""

/-- The per-language strings of the `I18N` dict that the webhook handlers
read (`welcome`, `help`, `fallback` via `get_text_response`, and
`image_error` / `system_error` directly).  The display-label fields
(`result_header`, `disease`, ..., `footer`) are consulted only by
`format_whatsapp_response`, which is not embedded, and are omitted. -/
structure I18nStrings where
  welcome : String
  help : String
  fallback : String
  image_error : String
  system_error : String
deriving DecidableEq, Repr

/-- `I18N` (whatsapp.py lines 187-324), restricted to the embedded fields. -/
def I18N : List (String × I18nStrings) :=
  [ ("en",
      { welcome := "🌱 *Welcome to FasalDrishti — AI Crop Doctor!*

I help identify crop diseases instantly.

📸 *How to use:*
1. Take a photo of the affected leaf/fruit
2. Send it here
3. Get in 30 seconds:
   ✅ Disease identification
   💊 Treatment advice
   💰 Cost per acre

🌾 *Supported crops:* Tomato, Rice, Wheat, Cotton, Potato, Chili, Onion

📸 Send a crop photo now!
🗣️ Type *lang* to change language",
        help := "🆘 *Help*

📸 *Photo tips:*
• Take a close-up of the affected leaf
• Use good lighting
• Send both front and back of the leaf

🗣️ *Change language:* Type *lang*

❓ For issues, type \x27support\x27",
        fallback := "🤖 I help identify crop diseases.

📸 Please send a *crop photo*.
Or type \x27help\x27 for assistance.
Or type *lang* to change language.",
        image_error := "🙏 Sorry, couldn\x27t receive the photo. Please try again.",
        system_error := "🙏 Something went wrong. Please try again." }),
    ("hi",
      { welcome := "🌱 *FasalDrishti — AI फसल डॉक्टर में आपका स्वागत है!*

मैं आपकी फसल की बीमारी तुरंत पहचानने में मदद करता हूं।

📸 *कैसे इस्तेमाल करें:*
1. प्रभावित पत्ती/फल की फोटो लें
2. यहां भेजें
3. 30 सेकंड में पाएं:
   ✅ बीमारी की पहचान
   💊 इलाज की सलाह
   💰 प्रति एकड़ खर्च

🌾 *समर्थित फसलें:* टमाटर, धान, गेहूं, कपास, आलू, मिर्च, प्याज

📸 अभी फसल की फोटो भेजें!
🗣️ भाषा बदलने के लिए *lang* टाइप करें",
        help := "🆘 *सहायता*

📸 *फोटो भेजने के टिप्स:*
• प्रभावित पत्ती को करीब से फोटो लें
• अच्छी रोशनी में फोटो लें
• पत्ती का आगे और पीछे दोनों तरफ भेजें

🗣️ *भाषा बदलें:* *lang* टाइप करें

❓ समस्या हो तो \x27support\x27 टाइप करें",
        fallback := "🤖 मैं आपकी फसल की बीमारी पहचानने में मदद करता हूं।

📸 कृपया अपनी *फसल की फोटो* भेजें।
या \x27help\x27 टाइप करें मदद के लिए।
या भाषा बदलने के लिए *lang* टाइप करें।",
        image_error := "🙏 माफ कीजिए, फोटो प्राप्त नहीं हो सकी। कृपया फिर से भेजें।",
        system_error := "🙏 कुछ गड़बड़ हो गई। कृपया दोबारा कोशिश करें।" }),
    ("ta",
      { welcome := "🌱 *FasalDrishti — AI பயிர் மருத்துவர்!*

📸 பாதிக்கப்பட்ட இலை/பழத்தின் புகைப்படம் அனுப்புங்கள்.
30 வினாடிகளில் நோய் கண்டறிதல் + சிகிச்சை!

🗣️ மொழி மாற்ற *lang* டைப் செய்யவும்",
        help := "🆘 *உதவி*

📸 புகைப்படம் அனுப்பவும்
🗣️ மொழி மாற்ற *lang* டைப் செய்யவும்",
        fallback := "📸 பயிர் புகைப்படம் அனுப்பவும் அல்லது \x27help\x27 டைப் செய்யவும்
🗣️ மொழி மாற்ற *lang*",
        image_error := "🙏 புகைப்படம் பெற இயலவில்லை. மீண்டும் முயற்சிக்கவும்.",
        system_error := "🙏 ஏதோ தவறு நடந்தது. மீண்டும் முயற்சிக்கவும்." }),
    ("te",
      { welcome := "🌱 *FasalDrishti — AI పంట వైద్యుడు!*

📸 ప్రభావిత ఆకు/పండు ఫోటో పంపండి.
30 సెకన్లలో వ్యాధి నిర్ధారణ + చికిత్స!

🗣️ భాష మార్చడానికి *lang* టైప్ చేయండి",
        help := "🆘 *సహాయం*

📸 ఫోటో పంపండి
🗣️ భాష మార్చడానికి *lang* టైప్ చేయండి",
        fallback := "📸 పంట ఫోటో పంపండి లేదా \x27help\x27 టైప్ చేయండి
🗣️ భాష మార్చడానికి *lang*",
        image_error := "🙏 ఫోటో అందలేదు. మళ్ళీ ప్రయత్నించండి.",
        system_error := "🙏 ఏదో తప్పు జరిగింది. మళ్ళీ ప్రయత్నించండి." }) ]

/-- `get_i18n` (whatsapp.py lines 327-329): fall back to English. -/
def get_i18n (lang : String) : I18nStrings :=
  match lookupKV I18N lang with
  | some t => t
  | none => (lookupKV I18N "en").getD
      { welcome := "", help := "", fallback := "", image_error := "", system_error := "" }

/-- Python `needle in hay` on strings (substring containment), on char
lists: prefix test at each position. -/
def charsPre : List Char → List Char → Bool
  | [], _ => true
  | _ :: _, [] => false
  | a :: as, b :: bs => a = b && charsPre as bs

/-- Recursion for `pyIn` over the haystack. -/
def charsIn (n : List Char) : List Char → Bool
  | [] => charsPre n []
  | b :: t => charsPre n (b :: t) || charsIn n t

/-- Python `needle in hay` for strings. -/
def pyIn (needle hay : String) : Bool := charsIn needle.data hay.data

/-- `get_text_response` (whatsapp.py lines 400-410): keyword matching by
substring containment on the lowercased, stripped text. -/
def get_text_response (text : String) (lang : String) : String :=
  let text_lower := pyStrip (pyLower text)
  let t := get_i18n lang
  if ["hi", "hello", "namaste", "नमस्ते", "हेलो", "hola"].any
      (fun w => pyIn w text_lower) then t.welcome
  else if ["help", "मदद", "सहायता", "உதவி", "సహాయం"].any
      (fun w => pyIn w text_lower) then t.help
  else t.fallback

/-- Python `s.replace(old, new)` for a single-character `old`: every
occurrence is replaced. -/
def pyReplaceChar (s : String) (c : Char) (r : String) : String :=
  String.mk (s.data.flatMap (fun x => if x = c then r.data else [x]))

/-- `_escape_xml` (whatsapp.py lines 413-421): the five sequential
`str.replace` calls, `&` first. -/
def escape_xml (text : String) : String :=
  pyReplaceChar (pyReplaceChar (pyReplaceChar (pyReplaceChar (pyReplaceChar
    text (Char.ofNat 38) "&amp;") (Char.ofNat 60) "&lt;")
    (Char.ofNat 62) "&gt;") (Char.ofNat 34) "&quot;") (Char.ofNat 39) "&apos;"

/-- Outcome of the webhook-verification GET handler. -/
inductive VerifyOutcome
  | ok (body : Option String)
  | forbidden
deriving DecidableEq, Repr

/-- `verify_webhook` (whatsapp.py lines 428-441): `PlainTextResponse` with
the raw challenge when `hub.mode == "subscribe"` and the token equals the
configured secret, else HTTP 403.  Absent query parameters are `none`. -/
def verify_webhook (secret : String)
    (hub_mode hub_verify_token hub_challenge : Option String) : VerifyOutcome :=
  if hub_mode == some "subscribe" && hub_verify_token == some secret then
    .ok hub_challenge
  else .forbidden

/-- The language-change command words (whatsapp.py lines 506 and 642). -/
def langCommandWords : List String := ["lang", "language", "भाषा", "bhasha"]

/-- Canonical inbound Meta message: the fields of `messages[0]` that
`_handle_meta_webhook` reads.  For an image, `mediaOk` records whether
`download_meta_media` yields content. -/
inductive MetaMsg
  | text (body : String)
  | image (mediaOk : Bool)
  | other (msgType : String)
deriving Repr

/-- Observable outcome of `_handle_meta_webhook` on one message: the text
sent back via `send_meta_message` (if any), the JSON `status` of the HTTP
response, the session store afterwards, and whether `analyze_crop_image`
was invoked. -/
structure MetaOutcome where
  sent : Option String
  status : String
  store : SessionStore
  analyzed : Bool
deriving Repr

/-- `_handle_meta_webhook` (whatsapp.py lines 469-540) on one decoded
message.  `analysisReply` stands for the `format_whatsapp_response` text of
the pipeline result when an image is analyzed. -/
def handle_meta_message (store : SessionStore) (from_number : String)
    (msg : MetaMsg) (analysisReply : String) : MetaOutcome :=
  let user_lang := get_user_language store from_number
  if user_lang = "" then
    match msg with
    | .text body =>
      match lookupKV SUPPORTED_LANGUAGES (pyStrip body) with
      | some info =>
        { sent := some (get_language_set_confirmation info.code),
          status := "language_set",
          store := set_user_language store from_number info.code,
          analyzed := false }
      | none =>
        { sent := some get_language_menu, status := "language_prompt",
          store := store, analyzed := false }
    | _ =>
      { sent := some get_language_menu, status := "language_prompt",
        store := store, analyzed := false }
  else
    let command : Option MetaOutcome :=
      match msg with
      | .text body =>
        let text := pyLower (pyStrip body)
        if langCommandWords.contains text then
          some { sent := some get_language_menu, status := "language_menu",
                 store := storePop store from_number, analyzed := false }
        else
          match lookupKV SUPPORTED_LANGUAGES text with
          | some info =>
            some { sent := some (get_language_set_confirmation info.code),
                   status := "language_changed",
                   store := set_user_language store from_number info.code,
                   analyzed := false }
          | none => none
      | _ => none
    match command with
    | some out => out
    | none =>
      let t := get_i18n user_lang
      match msg with
      | .image mediaOk =>
        if mediaOk then
          { sent := some analysisReply, status := "processed",
            store := store, analyzed := true }
        else
          { sent := some t.image_error, status := "processed",
            store := store, analyzed := false }
      | .text body =>
        { sent := some (get_text_response body user_lang), status := "processed",
          store := store, analyzed := false }
      | .other _ =>
        { sent := none, status := "processed", store := store, analyzed := false }

/-- The TwiML envelope built by `_handle_twilio_webhook` around an escaped
reply text. -/
def twiml_response (response_text : String) : String :=
  "<?xml version=\"1.0\" encoding=\"UTF-8\"?>\n<Response>\n    <Message>"
    ++ escape_xml response_text ++ "</Message>\n</Response>"

/-- Observable outcome of `_handle_twilio_webhook`: the synchronous HTTP
response body (TwiML XML), the session store afterwards, and whether
`analyze_crop_image` was invoked. -/
structure TwilioOutcome where
  body : String
  store : SessionStore
  analyzed : Bool
deriving Repr

/-- `_handle_twilio_webhook` (whatsapp.py lines 597-696) on one decoded
form post.  `num_media` is the parsed `NumMedia` field, `mediaOk` records
whether `download_twilio_media` yields content, and `analysisReply` stands
for the formatted pipeline result. -/
def handle_twilio_webhook (store : SessionStore) (from_number body_text : String)
    (num_media : Nat) (mediaOk : Bool) (analysisReply : String) : TwilioOutcome :=
  let user_lang := get_user_language store from_number
  let text_stripped := pyStrip body_text
  if user_lang = "" then
    match lookupKV SUPPORTED_LANGUAGES text_stripped with
    | some info =>
      { body := twiml_response (get_language_set_confirmation info.code),
        store := set_user_language store from_number info.code, analyzed := false }
    | none =>
      { body := twiml_response get_language_menu, store := store, analyzed := false }
  else if num_media = 0 && langCommandWords.contains (pyLower text_stripped) then
    { body := twiml_response get_language_menu,
      store := storePop store from_number, analyzed := false }
  else
    match (if num_media = 0 then lookupKV SUPPORTED_LANGUAGES text_stripped else none) with
    | some info =>
      { body := twiml_response (get_language_set_confirmation info.code),
        store := set_user_language store from_number info.code, analyzed := false }
    | none =>
      let t := get_i18n user_lang
      if num_media > 0 then
        if mediaOk then
          { body := twiml_response analysisReply, store := store, analyzed := true }
        else
          { body := twiml_response t.image_error, store := store, analyzed := false }
      else
        { body := twiml_response (get_text_response body_text user_lang),
          store := store, analyzed := false }

-- ============================================================
-- Specification-side definitions used to state the properties
-- ============================================================

/-- Entity form of the five XML-reserved characters (identity elsewhere):
the character-level specification that `_escape_xml` is checked against. -/
def xmlEntity (c : Char) : List Char :=
  if c = Char.ofNat 38 then "&amp;".data
  else if c = Char.ofNat 60 then "&lt;".data
  else if c = Char.ofNat 62 then "&gt;".data
  else if c = Char.ofNat 34 then "&quot;".data
  else if c = Char.ofNat 39 then "&apos;".data
  else [c]

/-- The nine supported language codes, in menu order. -/
def supportedCodes : List String := SUPPORTED_LANGUAGES.map (fun p => p.2.code)

/-- Invariant of the `user_sessions` store: every stored entry has its
`language_set` flag true and a supported language code. -/
def sessionInv (store : SessionStore) : Bool :=
  store.all (fun p => p.2.language_set && supportedCodes.contains p.2.language)

-- ============================================================
-- Theorems
-- ============================================================

-- Shared helper facts about the concrete knowledge base

theorem db_healthy_isSome : (dbGet "healthy").isSome = true := by decide

theorem fallbackKeys_length : fallbackKeys.length = 11 := by decide

theorem fallbackKeys_sound :
    ∀ i < 11, dbContains (fallbackKeys.getD i "healthy") = true ∧
      fallbackKeys.getD i "healthy" ≠ "healthy" := by decide

-- Claim C2 -----------------------------------------------------

/-- C2: for the Bedrock circuit breaker (threshold 2, cool-down 300 s):
it starts closed; a single failure does not open it; after exactly two
consecutive recorded failures every check made while the elapsed time since
the last failure is at most the cool-down reports the circuit open (allow
false); once more than the cool-down has elapsed the check auto-resets the
breaker to closed with the failure counter zeroed; and a single recorded
success zeroes the counter and closes the breaker unconditionally. -/
theorem circuit_breaker_contract :
    BEDROCK_CIRCUIT_THRESHOLD = 2 ∧
    BEDROCK_CIRCUIT_RESET_SECS = 300 ∧
    (∀ now, (circuit_is_open circuitInit now).1 = false) ∧
    (∀ t1 now, (circuit_is_open (circuit_record_failure circuitInit t1) now).1 = false) ∧
    (∀ t1 t2 now, now - t2 ≤ BEDROCK_CIRCUIT_RESET_SECS →
      (circuit_is_open
        (circuit_record_failure (circuit_record_failure circuitInit t1) t2) now).1 = true) ∧
    (∀ c now, c.isOpen = true →
      now - c.last_failure_time > BEDROCK_CIRCUIT_RESET_SECS →
      circuit_is_open c now = (false, { c with isOpen := false, failures := 0 })) ∧
    (∀ c, (circuit_record_success c).failures = 0 ∧
      (circuit_record_success c).isOpen = false) := by
  refine ⟨rfl, rfl, fun now => rfl, ?_, ?_, ?_, fun c => ⟨rfl, rfl⟩⟩
  · intro t1 now
    simp [circuit_record_failure, circuitInit, circuit_is_open, BEDROCK_CIRCUIT_THRESHOLD]
  · intro t1 t2 now h
    have hc : circuit_record_failure (circuit_record_failure circuitInit t1) t2 =
        { failures := 2, last_failure_time := t2, isOpen := true } := rfl
    rw [hc]
    have hne : ¬ (now - t2 > BEDROCK_CIRCUIT_RESET_SECS) := by omega
    simp [circuit_is_open, hne]
  · intro c now hOpen hElapsed
    simp [circuit_is_open, hOpen, hElapsed]

/-- Witness for `circuit_breaker_contract`: two failures at times 100 and
130 block a check at time 200; at time 431 the same open breaker resets. -/
theorem circuit_breaker_contract_witness :
    (circuit_is_open
      (circuit_record_failure (circuit_record_failure circuitInit 100) 130) 200).1 = true ∧
    circuit_is_open { failures := 2, last_failure_time := 130, isOpen := true } 431 =
      (false, { failures := 0, last_failure_time := 130, isOpen := false }) :=
  ⟨circuit_breaker_contract.2.2.2.2.1 100 130 200 (by decide),
   circuit_breaker_contract.2.2.2.2.2.1
     { failures := 2, last_failure_time := 130, isOpen := true } 431 rfl (by decide)⟩

-- Claim C1 -----------------------------------------------------

/-- C1: the stage-2 fallback chain never leaves the caller without a
candidate: whenever Bedrock and Rekognition both produce nothing (failure
or circuit-skip), the static fallback is the result, and for every random
draw the static fallback yields a candidate that is marked unhealthy and
whose disease key is a non-"healthy" record present in the knowledge
base. -/
theorem diagnosis_always_yields_candidate :
    (∀ c env, env.bedrockResult = none → env.rekResult = none →
      (runStage2 c env).engine = "fallback_demo" ∧
      (runStage2 c env).result = fallback_analysis env.choice env.confR) ∧
    (∀ choice confR,
      (fallback_analysis choice confR).is_healthy = some false ∧
      (fallback_analysis choice confR).disease_key =
        some (fallbackKeys.getD (choice % fallbackKeys.length) "healthy") ∧
      dbContains (fallbackKeys.getD (choice % fallbackKeys.length) "healthy") = true ∧
      fallbackKeys.getD (choice % fallbackKeys.length) "healthy" ≠ "healthy") := by
  constructor
  · intro c env hb hr
    by_cases hop : (circuit_is_open c env.now).1 <;>
      simp [runStage2, hb, hr, hop]
  · intro choice confR
    have hlt : choice % fallbackKeys.length < 11 := by
      rw [fallbackKeys_length]
      exact Nat.mod_lt _ (by decide)
    exact ⟨rfl, rfl, (fallbackKeys_sound _ hlt).1, (fallbackKeys_sound _ hlt).2⟩

/-- Witness for `diagnosis_always_yields_candidate`: both backends failing
at a closed breaker lands on the demo fallback. -/
theorem diagnosis_always_yields_candidate_witness :
    (runStage2 circuitInit
      { bedrockResult := none, rekResult := none, choice := 5, confR := 7, now := 42 }).engine
      = "fallback_demo" :=
  (diagnosis_always_yields_candidate.1 circuitInit
    { bedrockResult := none, rekResult := none, choice := 5, confR := 7, now := 42 }
    rfl rfl).1

-- Claim C3 -----------------------------------------------------

/-- C3 counterexample: the Rekognition backend is not gated by any circuit
breaker.  With the Bedrock breaker open, three consecutive requests whose
Rekognition call fails each still invoke Rekognition: after two consecutive
Rekognition failures the third request does not skip it, contradicting the
claim that threshold-many failures of the label detector make subsequent
requests skip that backend. -/
theorem rekognition_not_gated_cex :
    (runStage2
      (runStage2
        (runStage2 { failures := 2, last_failure_time := 1000, isOpen := true }
          { bedrockResult := none, rekResult := none, choice := 0, confR := 0, now := 1001 }).circuit
        { bedrockResult := none, rekResult := none, choice := 0, confR := 0, now := 1002 }).circuit
      { bedrockResult := none, rekResult := none, choice := 0, confR := 0, now := 1003 }).invoked
      = ["rekognition"] ∧
    (runStage2 { failures := 2, last_failure_time := 1000, isOpen := true }
      { bedrockResult := none, rekResult := none, choice := 0, confR := 0, now := 1001 }).engine
      = "fallback_demo" := by
  constructor <;> rfl

/-- C3 amended: the module has a single circuit breaker and it gates only
the Bedrock backend.  The breaker state after a request is independent of
the Rekognition outcome (so Bedrock gating is indeed unaffected by
Rekognition failures), and whenever Bedrock is skipped (breaker open) or
fails, Rekognition is invoked — it is never skipped, no matter how often it
failed before. -/
theorem only_bedrock_is_circuit_gated :
    (∀ (c : Circuit) (env : DiagEnv) (r1 r2 : Option AiResult),
      (runStage2 c { env with rekResult := r1 }).circuit =
        (runStage2 c { env with rekResult := r2 }).circuit) ∧
    (∀ (c : Circuit) (env : DiagEnv),
      (circuit_is_open c env.now).1 = true ∨ env.bedrockResult = none →
      "rekognition" ∈ (runStage2 c env).invoked) := by
  constructor
  · intro c env r1 r2
    by_cases hop : (circuit_is_open c env.now).1 <;>
      cases hb : env.bedrockResult <;>
      cases r1 <;> cases r2 <;>
      simp [runStage2, hop, hb]
  · intro c env h
    by_cases hop : (circuit_is_open c env.now).1
    · cases hr : env.rekResult <;> simp [runStage2, hop, hr]
    · have hb : env.bedrockResult = none := by
        rcases h with h | h
        · exact absurd h hop
        · exact h
      cases hr : env.rekResult <;> simp [runStage2, hop, hb, hr]

/-- Witness for `only_bedrock_is_circuit_gated`: with the breaker open,
the request invokes Rekognition. -/
theorem only_bedrock_is_circuit_gated_witness :
    "rekognition" ∈ (runStage2 { failures := 2, last_failure_time := 1000, isOpen := true }
      { bedrockResult := none, rekResult := none, choice := 0, confR := 0, now := 1001 }).invoked :=
  only_bedrock_is_circuit_gated.2
    { failures := 2, last_failure_time := 1000, isOpen := true }
    { bedrockResult := none, rekResult := none, choice := 0, confR := 0, now := 1001 }
    (Or.inl (by decide))

-- Enrichment helper lemmas (shared by the enrichment claims)

theorem cropDiseases_headD_in_db :
    ∀ p ∈ CROP_DISEASES, dbContains (p.2.headD "healthy") = true := by decide

theorem cropFirst_in_db (crop d : String) (ds : List String)
    (h : lookupKV CROP_DISEASES crop = some (d :: ds)) : dbContains d = true := by
  have hm := lookupKV_mem _ _ _ h
  simpa using cropDiseases_headD_in_db _ hm

theorem enrichResolve_key_in_db (r : AiResult) :
    dbContains (enrichResolve r).1 = true := by
  simp only [enrichResolve]
  split
  · exact db_healthy_isSome
  · split
    · simp_all [dbContains]
    · split
      · rename_i heq
        exact cropFirst_in_db _ _ _ heq
      · exact db_healthy_isSome

theorem enrichResolve_snd (r : AiResult) :
    (enrichResolve r).2 = dbGet (enrichResolve r).1 := by
  have hhs := db_healthy_isSome
  simp only [enrichResolve]
  split
  · cases hdbh : dbGet "healthy" with
    | none => simp [dbContains, hdbh] at hhs
    | some rec => simp [hdbh, Option.orElse]
  · split
    · simp_all
    · split <;> simp

theorem enrichResolve_healthy_true (r : AiResult)
    (h : r.is_healthy.getD false = true) : (enrichResolve r).1 = "healthy" := by
  simp [enrichResolve, h]

theorem enrichResolve_of_known (s : AiResult) (key : String) (info : DiseaseRecord)
    (hk : s.disease_key = some key) (hi : dbGet key = some info) :
    enrichResolve s =
      if s.is_healthy.getD false then ("healthy", dbGet "healthy")
      else (key, some info) := by
  rcases Option.isSome_iff_exists.mp db_healthy_isSome with ⟨hrec, hhrec⟩
  cases hb : s.is_healthy.getD false <;>
    simp [enrichResolve, hk, hi, hb, hhrec, Option.orElse]

-- Claim C4 -----------------------------------------------------

/-- C4: enrichment key resolution: a truthy `is_healthy` forces the
`"healthy"` key; otherwise a key present in the knowledge base is kept;
an unknown key with a recognized crop whose disease list is non-empty
resolves to that crop's first listed disease; an unknown key with an
unrecognized crop resolves to `"healthy"`; the resolved key always names a
record of the knowledge base; and an unknown key for crop `"rice"`
resolves to `"rice_blast"` (the first rice disease), not `"healthy"`. -/
theorem enrichment_key_resolution :
    (∀ r : AiResult,
      (r.is_healthy.getD false = true → (enrichResolve r).1 = "healthy") ∧
      (r.is_healthy.getD false = false →
        dbContains (r.disease_key.getD "healthy") = true →
        (enrichResolve r).1 = r.disease_key.getD "healthy") ∧
      (∀ d ds, r.is_healthy.getD false = false →
        lookupKV CROP_DISEASES (pyLower (r.crop.getD "")) = some (d :: ds) →
        dbContains (r.disease_key.getD "healthy") = false →
        (enrichResolve r).1 = d) ∧
      (r.is_healthy.getD false = false →
        lookupKV CROP_DISEASES (pyLower (r.crop.getD "")) = none →
        dbContains (r.disease_key.getD "healthy") = false →
        (enrichResolve r).1 = "healthy") ∧
      dbContains (enrichResolve r).1 = true) ∧
    ((enrichResolve
        { crop := some "rice", is_healthy := some false,
          disease_key := some "mystery_blight", disease_name := none,
          disease_cause := none, confidence := none, severity := none }).1
      = "rice_blast" ∧ ("rice_blast" : String) ≠ "healthy") := by
  refine ⟨fun r => ⟨enrichResolve_healthy_true r, ?_, ?_, ?_, enrichResolve_key_in_db r⟩,
    by decide, by decide⟩
  · intro hh hdb
    rcases Option.isSome_iff_exists.mp hdb with ⟨info, hinfo⟩
    simp [enrichResolve, hh, hinfo]
  · intro d ds hh hc hdb
    simp only [dbContains] at hdb
    cases hdg : dbGet (r.disease_key.getD "healthy") with
    | some i => rw [hdg] at hdb; simp at hdb
    | none => simp [enrichResolve, hh, hdg, hc]
  · intro hh hc hdb
    simp only [dbContains] at hdb
    cases hdg : dbGet (r.disease_key.getD "healthy") with
    | some i => rw [hdg] at hdb; simp at hdb
    | none => simp [enrichResolve, hh, hdg, hc]

/-- Witness for `enrichment_key_resolution`: a healthy candidate resolves
to the healthy record. -/
theorem enrichment_key_resolution_witness :
    (enrichResolve
      { crop := some "tomato", is_healthy := some true,
        disease_key := some "tomato_early_blight", disease_name := none,
        disease_cause := none, confidence := none, severity := none }).1 = "healthy" :=
  (enrichment_key_resolution.1
    { crop := some "tomato", is_healthy := some true,
      disease_key := some "tomato_early_blight", disease_name := none,
      disease_cause := none, confidence := none, severity := none }).1 rfl

-- Claim C8 -----------------------------------------------------

/-- C8: enrichment is idempotent: resolving the disease key of the analysis
built from an already-enriched candidate, against the same knowledge base,
yields the same key and record — the fallback-by-crop branch never fires a
second time with a different outcome. -/
theorem enrichment_idempotent :
    ∀ r : AiResult, enrichResolve (analysisOf r) = enrichResolve r := by
  intro r
  have hsnd := enrichResolve_snd r
  have hkey := enrichResolve_key_in_db r
  rcases Option.isSome_iff_exists.mp hkey with ⟨info, hinfo⟩
  have hpair : enrichResolve r = ((enrichResolve r).1, dbGet (enrichResolve r).1) := by
    rw [← hsnd]
  have hak : (analysisOf r).disease_key = some (enrichResolve r).1 := by
    simp [analysisOf]
  have hah : (analysisOf r).is_healthy =
      some (r.is_healthy.getD (decide ((enrichResolve r).1 = "healthy"))) := by
    simp [analysisOf]
  rw [enrichResolve_of_known (analysisOf r) (enrichResolve r).1 info hak hinfo,
    hah, Option.getD_some]
  cases hb : r.is_healthy with
  | none =>
    rw [Option.getD_none]
    by_cases hkh : (enrichResolve r).1 = "healthy"
    · rw [if_pos (by simp [hkh]), hpair, hkh]
    · rw [if_neg (by simp [hkh]), hpair, hinfo]
  | some b =>
    rw [Option.getD_some]
    cases b with
    | true =>
      rw [if_pos rfl, hpair, enrichResolve_healthy_true r (by rw [hb]; rfl)]
    | false =>
      rw [if_neg (by simp), hpair, hinfo]

-- Claim C6 -----------------------------------------------------

/-- C6 counterexample: a request whose verify token equals the configured
secret but whose mode parameter is not "subscribe" is rejected, so a token
match alone does not make the handler return the challenge. -/
theorem verify_webhook_mode_cex :
    verify_webhook "SECRET_TOKEN" (some "unsubscribe") (some "SECRET_TOKEN")
      (some "CHALLENGE") = VerifyOutcome.forbidden := by decide

/-- C6 amended: the verification GET handler responds with the raw
challenge value iff the mode parameter equals "subscribe" and the supplied
verify token equals the configured secret; in every other case the request
is rejected with an error status. -/
theorem verify_webhook_iff :
    ∀ (secret : String) (hub_mode hub_verify_token hub_challenge : Option String),
      (verify_webhook secret hub_mode hub_verify_token hub_challenge =
          VerifyOutcome.ok hub_challenge ↔
        hub_mode = some "subscribe" ∧ hub_verify_token = some secret) ∧
      (verify_webhook secret hub_mode hub_verify_token hub_challenge =
          VerifyOutcome.ok hub_challenge ∨
       verify_webhook secret hub_mode hub_verify_token hub_challenge =
          VerifyOutcome.forbidden) := by
  intro s m t ch
  by_cases hm : m = some "subscribe"
  · by_cases ht : t = some s
    · simp [verify_webhook, hm, ht]
    · simp [verify_webhook, hm, ht]
  · simp [verify_webhook, hm]

/-- Witness for `verify_webhook_iff`: mode "subscribe" with the matching
token yields exactly the challenge. -/
theorem verify_webhook_iff_witness :
    verify_webhook "tok" (some "subscribe") (some "tok") (some "chal") =
      VerifyOutcome.ok (some "chal") :=
  ((verify_webhook_iff "tok" (some "subscribe") (some "tok") (some "chal")).1).2 ⟨rfl, rfl⟩

-- Claim C9 -----------------------------------------------------

/-- C9 counterexample: an analysis confidence of 1 (a value on the 0-100
scale) is returned unchanged as 1, not divided by 100: the flattened
confidence does not equal 1/100. -/
theorem flatten_confidence_one_cex :
    flattenConfidence 1 = 1 ∧ flattenConfidence 1 ≠ 1 / 100 := by
  norm_num [flattenConfidence]

/-- C9 amended: the flattened confidence equals the analysis confidence
divided by 100 for every value strictly greater than 1; values at most 1
pass through unchanged; and every confidence on the 0-100 scale lands in
the interval [0, 1]. -/
theorem flatten_confidence_normalizes :
    ∀ confidence : ℚ,
      (1 < confidence → flattenConfidence confidence = confidence / 100) ∧
      (confidence ≤ 1 → flattenConfidence confidence = confidence) ∧
      (0 ≤ confidence → confidence ≤ 100 →
        0 ≤ flattenConfidence confidence ∧ flattenConfidence confidence ≤ 1) := by
  intro c
  refine ⟨fun h => if_pos h, fun h => if_neg (not_lt.mpr h), fun h0 h100 => ?_⟩
  by_cases h : 1 < c
  · rw [flattenConfidence, if_pos h]
    constructor
    · exact div_nonneg h0 (by norm_num)
    · rw [div_le_one (by norm_num)]
      exact h100
  · rw [flattenConfidence, if_neg h]
    exact ⟨h0, le_of_not_lt h⟩

/-- Witness for `flatten_confidence_normalizes` at confidence 87. -/
theorem flatten_confidence_normalizes_witness :
    flattenConfidence 87 = 87 / 100 :=
  (flatten_confidence_normalizes 87).1 (by norm_num)

-- Claim C5 -----------------------------------------------------

/-- C5 counterexample: an identity with no stored session whose very first
inbound event is the text "2" receives the Hindi language-set confirmation,
not the language menu: the code keeps no "menu already shown" state, so a
first contact that happens to be a menu selector is treated as a language
selection.  No diagnosis is triggered, but the reply is not the menu. -/
theorem new_identity_menu_cex :
    (handle_meta_message [] "919876543210" (MetaMsg.text "2") "REPLY").sent =
      some (get_language_set_confirmation "hi") ∧
    get_language_set_confirmation "hi" ≠ get_language_menu ∧
    (handle_meta_message [] "919876543210" (MetaMsg.text "2") "REPLY").analyzed = false := by
  refine ⟨rfl, ?_, rfl⟩
  decide

/-- C5 amended: for an identity with no stored session, the first inbound
event never invokes the analysis pipeline, on both the push-JSON (Meta) and
the form-post (Twilio) adapters; the reply is the language menu unless the
event is a text whose stripped body is a menu selector, in which case the
language is stored and the reply is the language-set confirmation. -/
theorem new_identity_first_event :
    (∀ (store : SessionStore) (u : String) (msg : MetaMsg) (reply : String),
      lookupKV store u = none →
      (handle_meta_message store u msg reply).analyzed = false ∧
      (∀ body, msg = MetaMsg.text body →
        lookupKV SUPPORTED_LANGUAGES (pyStrip body) = none →
        (handle_meta_message store u msg reply).sent = some get_language_menu) ∧
      (∀ body info, msg = MetaMsg.text body →
        lookupKV SUPPORTED_LANGUAGES (pyStrip body) = some info →
        (handle_meta_message store u msg reply).sent =
          some (get_language_set_confirmation info.code)) ∧
      (∀ ok, msg = MetaMsg.image ok →
        (handle_meta_message store u msg reply).sent = some get_language_menu) ∧
      (∀ ty, msg = MetaMsg.other ty →
        (handle_meta_message store u msg reply).sent = some get_language_menu)) ∧
    (∀ (store : SessionStore) (u body : String) (nm : Nat) (ok : Bool) (reply : String),
      lookupKV store u = none →
      (handle_twilio_webhook store u body nm ok reply).analyzed = false ∧
      (lookupKV SUPPORTED_LANGUAGES (pyStrip body) = none →
        (handle_twilio_webhook store u body nm ok reply).body =
          twiml_response get_language_menu) ∧
      (∀ info, lookupKV SUPPORTED_LANGUAGES (pyStrip body) = some info →
        (handle_twilio_webhook store u body nm ok reply).body =
          twiml_response (get_language_set_confirmation info.code))) := by
  constructor
  · intro store u msg reply h
    have hl : get_user_language store u = "" := by simp [get_user_language, h]
    refine ⟨?_, ?_, ?_, ?_, ?_⟩
    · cases msg with
      | text body =>
        cases hsel : lookupKV SUPPORTED_LANGUAGES (pyStrip body) <;>
          simp [handle_meta_message, hl, hsel]
      | image ok => simp [handle_meta_message, hl]
      | other ty => simp [handle_meta_message, hl]
    · rintro body rfl hsel
      simp [handle_meta_message, hl, hsel]
    · rintro body info rfl hsel
      simp [handle_meta_message, hl, hsel]
    · rintro ok rfl
      simp [handle_meta_message, hl]
    · rintro ty rfl
      simp [handle_meta_message, hl]
  · intro store u body nm ok reply h
    have hl : get_user_language store u = "" := by simp [get_user_language, h]
    refine ⟨?_, ?_, ?_⟩
    · cases hsel : lookupKV SUPPORTED_LANGUAGES (pyStrip body) <;>
        simp [handle_twilio_webhook, hl, hsel]
    · intro hsel
      simp [handle_twilio_webhook, hl, hsel]
    · intro info hsel
      simp [handle_twilio_webhook, hl, hsel]

/-- Witness for `new_identity_first_event`: a first-contact image on the
Meta adapter gets the menu and no analysis; a first-contact text on the
Twilio adapter gets the menu in the TwiML body. -/
theorem new_identity_first_event_witness :
    (handle_meta_message [] "911111111111" (MetaMsg.image true) "R").sent =
      some get_language_menu ∧
    (handle_twilio_webhook [] "whatsapp:+911111111111" "hello" 0 false "R").body =
      twiml_response get_language_menu :=
  ⟨(new_identity_first_event.1 [] "911111111111" (MetaMsg.image true) "R" rfl).2.2.2.1
      true rfl,
   (new_identity_first_event.2 [] "whatsapp:+911111111111" "hello" 0 false "R" rfl).2.1
      (by decide)⟩

-- Session-store helper lemmas (shared)

theorem supported_codes_mem :
    ∀ p ∈ SUPPORTED_LANGUAGES, supportedCodes.contains p.2.code = true := by decide

theorem supported_code_of_lookup (sel : String) (info : LangInfo)
    (h : lookupKV SUPPORTED_LANGUAGES sel = some info) :
    supportedCodes.contains info.code = true :=
  supported_codes_mem _ (lookupKV_mem _ _ _ h)

theorem all_storeSet (f : String × Session → Bool) (store : SessionStore)
    (u : String) (sess : Session) (h : store.all f = true)
    (hs : f (u, sess) = true) : (storeSet store u sess).all f = true := by
  induction store with
  | nil => simp [storeSet, hs]
  | cons p rest ih =>
    obtain ⟨k, v⟩ := p
    simp only [List.all_cons, Bool.and_eq_true] at h
    by_cases hk : k = u
    · simp [storeSet, hk, hs, h.2]
    · simp [storeSet, hk, h.1, ih h.2]

theorem all_storePop (f : String × Session → Bool) (store : SessionStore)
    (u : String) (h : store.all f = true) : (storePop store u).all f = true := by
  induction store with
  | nil => simp [storePop]
  | cons p rest ih =>
    obtain ⟨k, v⟩ := p
    simp only [List.all_cons, Bool.and_eq_true] at h
    by_cases hk : k = u
    · simp [storePop, hk, h.2]
    · simp [storePop, hk, h.1, ih h.2]

theorem sessionInv_set_user_language (store : SessionStore) (u : String)
    (code : String) (h : sessionInv store = true)
    (hc : supportedCodes.contains code = true) :
    sessionInv (set_user_language store u code) = true := by
  apply all_storeSet _ _ _ _ h
  simpa using hc

theorem sessionInv_storePop (store : SessionStore) (u : String)
    (h : sessionInv store = true) : sessionInv (storePop store u) = true :=
  all_storePop _ _ _ h

-- Claim C10 ----------------------------------------------------

/-- C10: the session store starts empty (invariant holds), both webhook
handlers preserve the invariant that every stored entry has its
language-confirmed flag set and one of the nine supported language codes
(entries are only created by `set_user_language` with a code from the menu
table, and session reset removes the entry), and under the invariant
`get_user_language` returns exactly the stored code when an entry exists
and the empty string otherwise. -/
theorem session_store_invariant :
    sessionInv [] = true ∧
    (∀ (store : SessionStore) (u : String) (msg : MetaMsg) (reply : String),
      sessionInv store = true →
      sessionInv (handle_meta_message store u msg reply).store = true) ∧
    (∀ (store : SessionStore) (u body : String) (nm : Nat) (ok : Bool) (reply : String),
      sessionInv store = true →
      sessionInv (handle_twilio_webhook store u body nm ok reply).store = true) ∧
    (∀ (store : SessionStore) (phone : String), sessionInv store = true →
      get_user_language store phone =
        (match lookupKV store phone with
         | some s => s.language
         | none => "")) := by
  refine ⟨rfl, ?_, ?_, ?_⟩
  · intro store u msg reply h
    by_cases hl : get_user_language store u = ""
    · cases msg with
      | text body =>
        cases hsel : lookupKV SUPPORTED_LANGUAGES (pyStrip body) with
        | some info =>
          simp only [handle_meta_message, hl, if_pos rfl, hsel]
          exact sessionInv_set_user_language _ _ _ h (supported_code_of_lookup _ _ hsel)
        | none => simpa [handle_meta_message, hl, hsel] using h
      | image ok => simpa [handle_meta_message, hl] using h
      | other ty => simpa [handle_meta_message, hl] using h
    · cases msg with
      | text body =>
        by_cases hcmd : pyLower (pyStrip body) ∈ langCommandWords
        · have hp := sessionInv_storePop store u h
          simpa [handle_meta_message, hl, hcmd] using hp
        · cases hsel : lookupKV SUPPORTED_LANGUAGES (pyLower (pyStrip body)) with
          | some info =>
            have hset := sessionInv_set_user_language store u info.code h
              (supported_code_of_lookup _ _ hsel)
            simpa [handle_meta_message, hl, hcmd, hsel] using hset
          | none => simpa [handle_meta_message, hl, hcmd, hsel] using h
      | image ok => cases ok <;> simpa [handle_meta_message, hl] using h
      | other ty => simpa [handle_meta_message, hl] using h
  · intro store u body nm ok reply h
    by_cases hl : get_user_language store u = ""
    · cases hsel : lookupKV SUPPORTED_LANGUAGES (pyStrip body) with
      | some info =>
        simp only [handle_twilio_webhook, hl, if_pos rfl, hsel]
        exact sessionInv_set_user_language _ _ _ h (supported_code_of_lookup _ _ hsel)
      | none => simpa [handle_twilio_webhook, hl, hsel] using h
    · by_cases hnm : nm = 0
      · by_cases hcmd : pyLower (pyStrip body) ∈ langCommandWords
        · have hp := sessionInv_storePop store u h
          simpa [handle_twilio_webhook, hl, hnm, hcmd] using hp
        · cases hsel : lookupKV SUPPORTED_LANGUAGES (pyStrip body) with
          | some info =>
            have hset := sessionInv_set_user_language store u info.code h
              (supported_code_of_lookup _ _ hsel)
            simpa [handle_twilio_webhook, hl, hnm, hcmd, hsel] using hset
          | none => simpa [handle_twilio_webhook, hl, hnm, hcmd, hsel] using h
      · have hpos : 0 < nm := Nat.pos_of_ne_zero hnm
        cases ok <;> simpa [handle_twilio_webhook, hl, hnm, hpos] using h
  · intro store phone h
    cases hlk : lookupKV store phone with
    | none => simp [get_user_language, hlk]
    | some sess =>
      have hmem := lookupKV_mem _ _ _ hlk
      have hall := List.all_eq_true.mp h _ hmem
      simp only [Bool.and_eq_true] at hall
      simp [get_user_language, hlk, hall.1]

/-- Witness for `session_store_invariant`: one language-selection event on
an empty store yields a store still satisfying the invariant, and lookup of
a stored identity returns its code. -/
theorem session_store_invariant_witness :
    sessionInv (handle_meta_message [] "911" (MetaMsg.text "2") "R").store = true ∧
    get_user_language [("911", { language := "hi", language_set := true })] "911" = "hi" :=
  ⟨session_store_invariant.2.1 [] "911" (MetaMsg.text "2") "R" rfl,
   session_store_invariant.2.2.2 [("911", { language := "hi", language_set := true })]
     "911" (by decide)⟩

-- XML-escaping helper lemmas (shared)

theorem escape_chain (l : List Char) :
    ((((l.flatMap fun x => if x = Char.ofNat 38 then "&amp;".data else [x]).flatMap
        fun x => if x = Char.ofNat 60 then "&lt;".data else [x]).flatMap
        fun x => if x = Char.ofNat 62 then "&gt;".data else [x]).flatMap
        fun x => if x = Char.ofNat 34 then "&quot;".data else [x]).flatMap
        (fun x => if x = Char.ofNat 39 then "&apos;".data else [x])
      = l.flatMap xmlEntity := by
  induction l with
  | nil => rfl
  | cons x l ih =>
    simp only [List.flatMap_cons, List.flatMap_append]
    rw [ih]
    congr 1
    by_cases h38 : x = Char.ofNat 38
    · subst h38; rfl
    · by_cases h60 : x = Char.ofNat 60
      · subst h60; rfl
      · by_cases h62 : x = Char.ofNat 62
        · subst h62; rfl
        · by_cases h34 : x = Char.ofNat 34
          · subst h34; rfl
          · by_cases h39 : x = Char.ofNat 39
            · subst h39; rfl
            · simp [xmlEntity, h38, h60, h62, h34, h39]

theorem escape_xml_spec (s : String) :
    escape_xml s = String.mk (s.data.flatMap xmlEntity) := by
  rw [show escape_xml s =
    String.mk (((((s.data.flatMap
        fun x => if x = Char.ofNat 38 then "&amp;".data else [x]).flatMap
        fun x => if x = Char.ofNat 60 then "&lt;".data else [x]).flatMap
        fun x => if x = Char.ofNat 62 then "&gt;".data else [x]).flatMap
        fun x => if x = Char.ofNat 34 then "&quot;".data else [x]).flatMap
        (fun x => if x = Char.ofNat 39 then "&apos;".data else [x])) from rfl]
  rw [escape_chain]

theorem lookupKV_storePop_self (store : SessionStore) (u : String)
    (hnd : (store.map Prod.fst).Nodup) : lookupKV (storePop store u) u = none := by
  induction store with
  | nil => rfl
  | cons p rest ih =>
    obtain ⟨k, v⟩ := p
    simp only [List.map_cons, List.nodup_cons] at hnd
    by_cases hk : k = u
    · subst hk
      have hpop : storePop ((k, v) :: rest) k = rest := by simp [storePop]
      rw [hpop]
      cases hl : lookupKV rest k with
      | none => rfl
      | some w =>
        exact absurd (List.mem_map_of_mem Prod.fst (lookupKV_mem _ _ _ hl)) hnd.1
    · simp [storePop, lookupKV, hk, ih hnd.2]

-- Claim C7 -----------------------------------------------------

set_option maxRecDepth 40000

/-- C7: for an identity with an active stored session (entry present,
language-confirmed flag set, non-empty language), a form-post webhook with
zero media and body text "lang" removes the session entry — the identity is
back to the awaiting-language state — and the HTTP response body is the
TwiML XML document whose single Message element carries the menu text
passed through the XML escaper.  The escaper replaces every occurrence of
the five XML-reserved characters by its entity form (stated for every
string), and the escaped message content contains no raw markup
characters. -/
theorem twilio_lang_resets_session :
    (∀ (store : SessionStore) (u : String) (sess : Session) (ok : Bool) (reply : String),
      (store.map Prod.fst).Nodup →
      lookupKV store u = some sess → sess.language_set = true → sess.language ≠ "" →
      lookupKV (handle_twilio_webhook store u "lang" 0 ok reply).store u = none ∧
      (handle_twilio_webhook store u "lang" 0 ok reply).body =
        "<?xml version=\"1.0\" encoding=\"UTF-8\"?>\n<Response>\n    <Message>" ++
          escape_xml get_language_menu ++ "</Message>\n</Response>" ∧
      (handle_twilio_webhook store u "lang" 0 ok reply).analyzed = false) ∧
    (∀ s : String, escape_xml s = String.mk (s.data.flatMap xmlEntity)) ∧
    ((escape_xml get_language_menu).data.all fun c =>
      (c != Char.ofNat 60) && (c != Char.ofNat 62) &&
      (c != Char.ofNat 34) && (c != Char.ofNat 39)) = true := by
  refine ⟨?_, escape_xml_spec, by decide⟩
  intro store u sess ok reply hnd hlk hset hne
  have hl : get_user_language store u = sess.language := by
    simp [get_user_language, hlk, hset]
  have hcmd : pyLower (pyStrip "lang") ∈ langCommandWords := by decide
  refine ⟨?_, ?_, ?_⟩ <;>
    simp [handle_twilio_webhook, twiml_response, hl, hne, hcmd,
      lookupKV_storePop_self store u hnd]

/-- Witness for `twilio_lang_resets_session`: a one-entry store with an
active Hindi session loses its entry after the "lang" form post. -/
theorem twilio_lang_resets_session_witness :
    lookupKV (handle_twilio_webhook
      [("whatsapp:+911234567890", { language := "hi", language_set := true })]
      "whatsapp:+911234567890" "lang" 0 false "R").store "whatsapp:+911234567890" = none :=
  (twilio_lang_resets_session.1
    [("whatsapp:+911234567890", { language := "hi", language_set := true })]
    "whatsapp:+911234567890" { language := "hi", language_set := true } false "R"
    (by decide) (by decide) rfl (by decide)).1

end FasalDrishti
